import Mathlib

/-!
Verification of the audio feature extraction and heuristic classification
engine (`AudioAnalyzer` in src/services/algorithmicTaggingService.ts,
`InstrumentDetector` and `MIDIAnalysisService` in src/unnamed/part_001).

Modelling conventions:
* JavaScript numbers are IEEE doubles; every finite double is a rational
  number, so purely algebraic code (sums, products, divisions, comparisons,
  `Math.round`, `Math.floor`) is embedded over `ℚ`.
* Code that applies transcendental functions (`Math.sqrt`, `Math.cos`,
  `Math.sin`, `Math.log`, `Math.log2`) is embedded over `ℝ`, using the exact
  real functions; those definitions are noncomputable.
* `Math.round x` rounds half-up (towards +infinity), i.e. `⌊x + 1/2⌋`;
  the JavaScript `%` operator is the truncating remainder `Int.tmod`.
* `arr.slice(a, b)` on a typed array is `(l.drop a).take (b - a)`, which
  truncates at the end of the array exactly like `slice` does.
* A JavaScript loop `for (let i = 0; i < len - W; i += H)` over window start
  offsets is embedded by `windowStarts len W H`; when `len ≤ W` the loop body
  never runs (`len - W` is non-positive), which `ℕ` subtraction reproduces.
* A JavaScript loop `for (let i = 0; i < fft.length / 2; i++)` compares the
  integer `i` against the float `length / 2`, so it runs `⌈length / 2⌉`
  times, i.e. `(length + 1) / 2` in `ℕ` arithmetic.
* Out-of-range typed-array reads (`fft[j]` with `j` past the end), which
  would contaminate results with `NaN` in JavaScript, are totalised by
  `List.getD _ _ 0`; all theorems below only cover inputs for which the
  JavaScript code never reads out of range.
-/

/-- JavaScript `Math.round`: round half-up (towards +infinity). -/
def jsRound {α : Type} [LinearOrderedField α] [FloorRing α] (x : α) : ℤ :=
  ⌊x + 1 / 2⌋

/-- The start offsets produced by `for (let i = 0; i < len - W; i += H)`. -/
def windowStarts (len windowSize hopSize : ℕ) : List ℕ :=
  (List.range (((len - windowSize) + hopSize - 1) / hopSize)).map (· * hopSize)

/-- `[...new Set(tags)]`: deduplicate, keeping first occurrences in order. -/
def jsSetDedup (l : List String) : List String :=
  l.foldl (fun acc t => if t ∈ acc then acc else acc ++ [t]) []

/-- `hay.includes(needle)`: contiguous substring test on character lists. -/
def hasSub (hay needle : List Char) : Bool :=
  (List.range (hay.length + 1)).any fun i => needle.isPrefixOf (hay.drop i)

/-- The integers `a, a+1, ..., b-1` (empty when `b ≤ a`), the index set of a
JavaScript loop `for (let j = a; j < b; j++)`. -/
def intRange (a b : ℤ) : List ℤ :=
  (List.range (b - a).toNat).map fun (k : ℕ) => a + (k : ℤ)

/-- A conditional `tags.push(...)` block: its tags when the condition holds,
nothing otherwise. -/
def tagsWhen (b : Bool) (ts : List String) : List String :=
  if b then ts else []

namespace InstrumentDetector

/-- The `AudioFeatures` record of `InstrumentDetector` (part_001 lines
465-476). Scalar fields are JavaScript doubles, modelled as rationals. -/
structure AudioFeatures where
  spectralCentroid : ℚ
  spectralRolloff : ℚ
  zeroCrossingRate : ℚ
  mfcc : List ℚ
  chroma : List ℚ
  tempo : ℚ
  energy : ℚ
  attack : ℚ
  sustain : ℚ
  decay : ℚ

/-- `InstrumentDetector.classifyInstrument` (part_001 lines 551-615):
a fixed sequence of threshold rules, first match wins. -/
def classifyInstrument (features : AudioFeatures) : String :=
  let c := features.spectralCentroid
  let z := features.zeroCrossingRate
  let e := features.energy
  let a := features.attack
  let s := features.sustain
  let d := features.decay
  if c < 200 ∧ e > 0.7 ∧ a < 0.01 then "kick"
  else if c > 1000 ∧ c < 4000 ∧ z > 0.1 ∧ e > 0.5 then "snare"
  else if c > 3000 ∧ z > 0.15 ∧ e < 0.4 then "hihat"
  else if c < 300 ∧ e > 0.6 ∧ s > 0.3 then "bass"
  else if c > 1000 ∧ c < 3000 ∧ s > 0.5 then "lead"
  else if c > 500 ∧ c < 2000 ∧ s > 0.7 ∧ e < 0.6 then "pad"
  else if c > 1000 ∧ c < 3000 ∧ z > 0.05 ∧ z < 0.15 then "vocal"
  else if c > 500 ∧ c < 2000 ∧ a < 0.05 ∧ s > 0.3 then "piano"
  else if c > 200 ∧ c < 1500 ∧ z > 0.08 ∧ e > 0.4 then "guitar"
  else if c > 500 ∧ c < 2000 ∧ s > 0.6 ∧ a < 0.1 then "string"
  else if c > 300 ∧ c < 1500 ∧ e > 0.5 ∧ s > 0.4 then "brass"
  else if a < 0.05 ∧ d < 0.5 ∧ e > 0.6 then "percussion"
  else "unknown"

/-- `InstrumentDetector.calculateConfidence` (part_001 lines 617-653):
0.5 base plus per-class bonuses for kick/snare/hihat/bass; the `switch`
default assigns a flat 0.3 to every other label; final clamp to [0, 1]. -/
def calculateConfidence (features : AudioFeatures) (instrumentType : String) : ℚ :=
  let c := features.spectralCentroid
  let z := features.zeroCrossingRate
  let e := features.energy
  let a := features.attack
  let s := features.sustain
  let confidence : ℚ :=
    if instrumentType = "kick" then
      0.5 + (if c < 200 then 0.2 else 0) + (if e > 0.7 then 0.2 else 0)
        + (if a < 0.01 then 0.1 else 0)
    else if instrumentType = "snare" then
      0.5 + (if c > 1000 ∧ c < 4000 then 0.2 else 0) + (if z > 0.1 then 0.2 else 0)
        + (if e > 0.5 then 0.1 else 0)
    else if instrumentType = "hihat" then
      0.5 + (if c > 3000 then 0.2 else 0) + (if z > 0.15 then 0.2 else 0)
        + (if e < 0.4 then 0.1 else 0)
    else if instrumentType = "bass" then
      0.5 + (if c < 300 then 0.2 else 0) + (if e > 0.6 then 0.2 else 0)
        + (if s > 0.3 then 0.1 else 0)
    else 0.3
  min 1 (max 0 confidence)

/-- `InstrumentDetector.generateInstrumentTags` (part_001 lines 666-723):
the label, frequency-band, energy, envelope and instrument-bundle tags,
deduplicated at the end with `[...new Set(tags)]`. -/
def generateInstrumentTags (instrumentType : String) (features : AudioFeatures) :
    List String :=
  let freqTags :=
    if features.spectralCentroid < 200 then ["low-frequency", "sub-bass"]
    else if features.spectralCentroid < 500 then ["bass-range"]
    else if features.spectralCentroid < 1000 then ["mid-range"]
    else if features.spectralCentroid < 3000 then ["high-mid"]
    else ["high-frequency", "bright"]
  let energyTags :=
    if features.energy > 0.7 then ["high-energy", "punchy"]
    else if features.energy < 0.3 then ["low-energy", "soft"]
    else []
  let envTags :=
    (if features.attack < 0.01 then ["fast-attack", "punchy"] else []) ++
    (if features.sustain > 0.6 then ["sustained", "long"] else []) ++
    (if features.decay < 0.3 then ["short-decay", "tight"] else [])
  let instTags :=
    if instrumentType = "kick" then ["drum", "percussion", "rhythm"]
    else if instrumentType = "snare" then ["drum", "percussion", "rhythm", "crack"]
    else if instrumentType = "hihat" then ["drum", "percussion", "rhythm", "cymbal"]
    else if instrumentType = "bass" then ["low-end", "foundation"]
    else if instrumentType = "lead" then ["melody", "synthesizer", "synth"]
    else if instrumentType = "pad" then ["atmospheric", "ambient", "texture"]
    else if instrumentType = "vocal" then ["voice", "human", "melody"]
    else if instrumentType = "piano" then ["keys", "acoustic", "melody"]
    else if instrumentType = "guitar" then ["string", "acoustic", "melody"]
    else if instrumentType = "string" then ["orchestral", "melody", "acoustic"]
    else if instrumentType = "brass" then ["horn", "orchestral", "melody"]
    else []
  jsSetDedup ([instrumentType] ++ freqTags ++ energyTags ++ envTags ++ instTags)

/-- `InstrumentDetector.calculateZeroCrossingRate` (part_001 lines 757-765):
counts sign changes between adjacent samples, divided by the buffer length. -/
def calculateZeroCrossingRate (channelData : List ℚ) : ℚ :=
  let crossings :=
    ((channelData.zip channelData.tail).filter
      (fun p => decide (0 ≤ p.2) != decide (0 ≤ p.1))).length
  (crossings : ℚ) / (channelData.length : ℚ)

/-- Sum-of-squares window energy used by `InstrumentDetector.detectTempo`
(`window.reduce((sum, val) => sum + val * val, 0)`, with no RMS scaling). -/
def windowEnergySq (channelData : List ℚ) (start windowSize : ℕ) : ℚ :=
  (((channelData.drop start).take windowSize).map fun v => v * v).sum

/-- `InstrumentDetector.detectTempo` (part_001 lines 805-829): onsets are
windows whose raw sum-of-squares energy exceeds 0.1; the tempo is
`Math.round(60 / avgInterval)` over mean inter-onset intervals, with NO
clamp.  Onset times are strictly increasing, so `avgInterval` is never zero
when the rounding branch is reached. -/
def detectTempo (channelData : List ℚ) (sampleRate : ℚ) : ℤ :=
  let windowSize := 1024
  let hopSize := 512
  let onsets :=
    ((windowStarts channelData.length windowSize hopSize).filter
      (fun i => decide (windowEnergySq channelData i windowSize > 0.1))).map
      fun (i : ℕ) => (i : ℚ) / sampleRate
  if onsets.length < 2 then 120
  else
    let intervals := (onsets.tail.zip onsets).map fun p => p.1 - p.2
    let avgInterval := intervals.sum / (intervals.length : ℚ)
    jsRound (60 / avgInterval)

end InstrumentDetector

namespace MIDIAnalysisService

/-- The four frequency tables of `MIDIAnalysis` that feed
`identifyLearningGaps`; association lists preserve the JavaScript object
insertion order, and keys are unique by construction. -/
structure Tables where
  instruments : List (String × ℕ)
  genres : List (String × ℕ)
  tempos : List (String × ℕ)
  keys : List (List Char × ℕ)

/-- JavaScript `obj[k] = v`: overwrite in place, or append a new key. -/
def setTo {α : Type} [DecidableEq α] (m : List (α × ℕ)) (k : α) (v : ℕ) :
    List (α × ℕ) :=
  if (m.lookup k).isSome then m.map fun p => if p.1 = k then (p.1, v) else p
  else m ++ [(k, v)]

/-- JavaScript `obj[k] = (obj[k] || 0) + v`: accumulate, or append. -/
def bump {α : Type} [DecidableEq α] (m : List (α × ℕ)) (k : α) (v : ℕ) :
    List (α × ℕ) :=
  match m.lookup k with
  | some old => m.map fun p => if p.1 = k then (p.1, old + v) else p
  | none => m ++ [(k, v)]

/-- The `genreKeywords` table (part_001 lines 148-160). -/
def genreKeywords : List (String × List String) :=
  [("Jazz", ["jazz", "swing", "blues", "bebop", "fusion", "smooth", "lounge"]),
   ("Classical", ["classical", "symphony", "orchestra", "chamber", "concerto",
                  "sonata", "fugue"]),
   ("Rock", ["rock", "metal", "punk", "grunge", "alternative", "indie", "garage"]),
   ("Electronic", ["electronic", "techno", "house", "trance", "ambient", "synth",
                   "dance", "edm"]),
   ("Pop", ["pop", "mainstream", "radio", "hit", "chart", "commercial"]),
   ("Funk", ["funk", "disco", "soul", "r&b", "motown"]),
   ("Latin", ["latin", "salsa", "bossa", "samba", "tango", "flamenco", "samba"]),
   ("Country", ["country", "folk", "bluegrass", "western", "americana"]),
   ("Hip-Hop", ["hip", "hop", "rap", "urban", "trap", "drill"]),
   ("Reggae", ["reggae", "ska", "dub", "dancehall"]),
   ("World", ["world", "ethnic", "traditional", "cultural", "tribal"])]

/-- The instrument keyword list of `analyzeSingleMIDI` (part_001 273-275). -/
def instrumentKeywords : List String :=
  ["piano", "guitar", "bass", "drums", "sax", "trumpet", "violin", "flute",
   "organ", "synth"]

/-- `MIDIAnalysisService.mapKeywordToInstrument` (part_001 lines 316-330). -/
def mapKeywordToInstrument (keyword : String) : String :=
  if keyword = "piano" then "Piano"
  else if keyword = "guitar" then "Guitar"
  else if keyword = "bass" then "Bass"
  else if keyword = "drums" then "Drums"
  else if keyword = "sax" then "Saxophone"
  else if keyword = "trumpet" then "Trumpet"
  else if keyword = "violin" then "Violin"
  else if keyword = "flute" then "Flute"
  else if keyword = "organ" then "Organ"
  else if keyword = "synth" then "Synthesizer"
  else "Unknown"

/-- The `tempoCategories` table (part_001 lines 162-169): name, min, max. -/
def tempoCategories : List (String × ℕ × ℕ) :=
  [("Very Slow", 40, 60), ("Slow", 60, 80), ("Moderate", 80, 100),
   ("Medium", 100, 120), ("Fast", 120, 140), ("Very Fast", 140, 200)]

/-- `MIDIAnalysisService.categorizeTempo` (part_001 lines 351-358). -/
def categorizeTempo (tempo : ℕ) : String :=
  match tempoCategories.find? (fun cat => decide (cat.2.1 ≤ tempo ∧ tempo ≤ cat.2.2)) with
  | some cat => cat.1
  | none => "Unknown"

/-- ASCII digit test (`\d`). -/
def isDigitCh (c : Char) : Bool := '0' ≤ c && c ≤ '9'

/-- Whitespace test (`\s`), restricted to the characters that occur in file
names. -/
def isSpaceCh (c : Char) : Bool := c = ' ' || c = '\t'

/-- Decimal value of a digit string. -/
def digitsVal (l : List Char) : ℕ :=
  l.foldl (fun acc c => 10 * acc + (c.toNat - 48)) 0

/-- The literal `bpm` required by every alternative of the tempo regex. -/
def bpmLit : List Char := ['b', 'p', 'm']

/-- One attempt of `(\d{2,3})bpm|(\d{2,3})\s*bpm|bpm\s*(\d{2,3})` anchored at
the start of `s`: alternatives in order, greedy digit counts (3 before 2). -/
def tryTempoAltsAt (s : List Char) : Option ℕ :=
  let digitsThen : ℕ → Bool → Option ℕ := fun k spaces =>
    let ds := s.take k
    let rest := if spaces then (s.drop k).dropWhile isSpaceCh else s.drop k
    if ds.length = k ∧ ds.all isDigitCh ∧ bpmLit.isPrefixOf rest then
      some (digitsVal ds)
    else none
  match digitsThen 3 false with
  | some v => some v
  | none =>
  match digitsThen 2 false with
  | some v => some v
  | none =>
  match digitsThen 3 true with
  | some v => some v
  | none =>
  match digitsThen 2 true with
  | some v => some v
  | none =>
    if bpmLit.isPrefixOf s then
      let r := (s.drop 3).dropWhile isSpaceCh
      if (r.take 3).length = 3 ∧ (r.take 3).all isDigitCh then
        some (digitsVal (r.take 3))
      else if (r.take 2).length = 2 ∧ (r.take 2).all isDigitCh then
        some (digitsVal (r.take 2))
      else none
    else none

/-- The tempo regex of `analyzeSingleMIDI` (part_001 line 289):
`/(\d{2,3})bpm|(\d{2,3})\s*bpm|bpm\s*(\d{2,3})/i` evaluated leftmost-first
on the already lower-cased file name; the matched digit group's value. -/
def tempoMatch : List Char → Option ℕ
  | [] => none
  | c :: rest =>
    match tryTempoAltsAt (c :: rest) with
    | some v => some v
    | none => tempoMatch rest

/-- `[A-G]` of the key regex, case-insensitively, on the lower-cased name. -/
def isKeyLetter (c : Char) : Bool :=
  c = 'a' || c = 'b' || c = 'c' || c = 'd' || c = 'e' || c = 'f' || c = 'g'

/-- The `[#b]?[m]?` continuation of the key regex (greedy, no backtracking
is needed because the rest of the pattern can always match empty). -/
def keyTail : List Char → List Char
  | [] => []
  | x :: r =>
    if x = '#' || x = 'b' then
      x :: (match r with | 'm' :: _ => ['m'] | _ => [])
    else if x = 'm' then ['m']
    else []

/-- Group 1 of the key regex of `analyzeSingleMIDI` (part_001 line 303):
`/([A-G][#b]?[m]?)\s*(major|minor)?/i`, leftmost match on the lower-cased
file name. -/
def keyMatch : List Char → Option (List Char)
  | [] => none
  | c :: rest => if isKeyLetter c then some (c :: keyTail rest) else keyMatch rest

/-- `MIDIAnalysisService.analyzeSingleMIDI` (part_001 lines 246-314),
restricted to the four tables that feed `identifyLearningGaps`
(`averageTempo`, time signatures and file categories do not).  Every branch,
default and threshold follows the source, including the `Piano` default
when no instrument keyword occurs and the `'C'` default key. -/
def analyzeSingleMIDI (name : List Char) : Tables :=
  let fileName := name.map Char.toLower
  let genres0 := genreKeywords.foldl
    (fun m p => if p.2.any (fun kw => hasSub fileName kw.toList) then setTo m p.1 1 else m)
    []
  let genres := if genres0.isEmpty then [("Unknown", 1)] else genres0
  let instruments0 := instrumentKeywords.foldl
    (fun m kw => if hasSub fileName kw.toList then setTo m (mapKeywordToInstrument kw) 1 else m)
    []
  let instruments := if instruments0.isEmpty then [("Piano", 1)] else instruments0
  let tempos :=
    match tempoMatch fileName with
    | some tempo =>
      if 40 ≤ tempo ∧ tempo ≤ 200 then setTo [] (categorizeTempo tempo) 1 else []
    | none => [("Medium", 1)]
  let keys :=
    match keyMatch fileName with
    | some g => [(g, 1)]
    | none => [(['C'], 1)]
  { instruments := instruments, genres := genres, tempos := tempos, keys := keys }

/-- The aggregation loop of `analyzeMIDIFiles` (part_001 lines 190-232),
restricted to the four tables that feed `identifyLearningGaps`: per-file
tables are folded into the batch tables with `(agg[k] || 0) + count`. -/
def aggregate (files : List (List Char)) : Tables :=
  files.foldl
    (fun agg name =>
      let fa := analyzeSingleMIDI name
      { instruments := fa.instruments.foldl (fun m p => bump m p.1 p.2) agg.instruments
        genres := fa.genres.foldl (fun m p => bump m p.1 p.2) agg.genres
        tempos := fa.tempos.foldl (fun m p => bump m p.1 p.2) agg.tempos
        keys := fa.keys.foldl (fun m p => bump m p.1 p.2) agg.keys })
    ⟨[], [], [], []⟩

/-- The fixed list of "common" instruments (part_001 line 378). -/
def commonInstruments : List String :=
  ["Piano", "Guitar", "Bass", "Drums", "Saxophone", "Trumpet"]

/-- `MIDIAnalysisService.identifyLearningGaps` (part_001 lines 374-404).
The JavaScript test `!analysis.instruments[instrument]` is true for a
missing key (undefined) and for a zero count, i.e. `lookup.getD 0 = 0`. -/
def identifyLearningGaps (analysis : Tables) : List String :=
  ((commonInstruments.filter fun i =>
      decide ((analysis.instruments.lookup i).getD 0 = 0)).map
    fun i => "Missing " ++ i ++ " training data")
  ++ (if analysis.tempos.length < 3 then
        ["Limited tempo diversity - add more varied BPM ranges"] else [])
  ++ (if analysis.genres.length < 3 then
        ["Limited genre diversity - add more musical styles"] else [])
  ++ (if analysis.keys.length < 5 then
        ["Limited key diversity - add more key signatures"] else [])

/-- `analyzeMIDIFiles(files).learningGaps` (part_001 lines 240, 374-404). -/
def analyzeMIDIFilesLearningGaps (files : List (List Char)) : List String :=
  identifyLearningGaps (aggregate files)

end MIDIAnalysisService

namespace AudioAnalyzer

/-- `AudioAnalyzer.generateTagsFromFilename` (algorithmicTaggingService.ts
lines 232-306): filename-keyword, style, processing, tempo, key and quality
tags, deduplicated at the end with `[...new Set(tags)]`. -/
def generateTagsFromFilename (filename : List Char) (bpm : ℚ) (key : String) :
    List String :=
  let name := filename.map Char.toLower
  let has := fun (kw : String) => hasSub name kw.toList
  jsSetDedup (List.flatten
    [tagsWhen (has "kick") ["kick", "drum"],
     tagsWhen (has "snare") ["snare", "drum"],
     tagsWhen (has "hihat" || has "hi-hat") ["hihat", "drum"],
     tagsWhen (has "crash") ["crash", "cymbal"],
     tagsWhen (has "bass") ["bass"],
     tagsWhen (has "808") ["808", "sub-bass"],
     tagsWhen (has "guitar") ["guitar"],
     tagsWhen (has "piano" || has "keys") ["piano", "keys"],
     tagsWhen (has "synth") ["synthesizer", "synth"],
     tagsWhen (has "pad") ["pad", "atmospheric"],
     tagsWhen (has "lead") ["lead", "melody"],
     tagsWhen (has "vocal" || has "voice") ["vocal", "voice"],
     tagsWhen (has "choir") ["choir", "vocal"],
     tagsWhen (has "string") ["strings", "orchestral"],
     tagsWhen (has "brass") ["brass", "horn"],
     tagsWhen (has "flute") ["flute", "woodwind"],
     tagsWhen (has "sax") ["saxophone", "brass"],
     tagsWhen (has "trap") ["trap"],
     tagsWhen (has "house") ["house"],
     tagsWhen (has "techno") ["techno"],
     tagsWhen (has "dubstep") ["dubstep"],
     tagsWhen (has "drum" && has "bass") ["drum and bass", "dnb"],
     tagsWhen (has "ambient") ["ambient"],
     tagsWhen (has "lo-fi" || has "lofi") ["lo-fi"],
     tagsWhen (has "jazz") ["jazz"],
     tagsWhen (has "funk") ["funk"],
     tagsWhen (has "reggae") ["reggae"],
     tagsWhen (has "rock") ["rock"],
     tagsWhen (has "metal") ["metal"],
     tagsWhen (has "country") ["country"],
     tagsWhen (has "blues") ["blues"],
     tagsWhen (has "distorted" || has "dist") ["distorted"],
     tagsWhen (has "reverb") ["reverb"],
     tagsWhen (has "delay") ["delay"],
     tagsWhen (has "chorus") ["chorus"],
     tagsWhen (has "flanger") ["flanger"],
     tagsWhen (has "phaser") ["phaser"],
     tagsWhen (has "compressed" || has "comp") ["compressed"],
     tagsWhen (has "saturated" || has "sat") ["saturated"],
     tagsWhen (has "filtered" || has "filter") ["filtered"],
     tagsWhen (has "sidechain") ["sidechain"],
     tagsWhen (decide (bpm < 80)) ["slow", "downtempo"],
     tagsWhen (decide (80 ≤ bpm ∧ bpm < 120)) ["mid-tempo"],
     tagsWhen (decide (120 ≤ bpm ∧ bpm < 140)) ["up-tempo"],
     tagsWhen (decide (140 ≤ bpm)) ["fast", "high-energy"],
     (if key.contains 'm' then ["minor"] else ["major"]),
     tagsWhen (has "clean") ["clean"],
     tagsWhen (has "dirty" || has "gritty") ["dirty", "gritty"],
     tagsWhen (has "punchy") ["punchy"],
     tagsWhen (has "soft") ["soft"],
     tagsWhen (has "hard") ["hard"],
     tagsWhen (has "warm") ["warm"],
     tagsWhen (has "cold") ["cold"],
     tagsWhen (has "bright") ["bright"],
     tagsWhen (has "dark") ["dark"]])

end AudioAnalyzer

namespace AlgorithmicTaggingService

/-- `AlgorithmicTaggingService.generateTagsFromFilename`
(algorithmicTaggingService.ts lines 401-433): the shorter fallback tag
table; callers pass an already lower-cased name. -/
def generateTagsFromFilename (name : List Char) (bpm : ℚ) (key : String) :
    List String :=
  let has := fun (kw : String) => hasSub name kw.toList
  jsSetDedup (List.flatten
    [tagsWhen (has "kick") ["kick", "drum"],
     tagsWhen (has "snare") ["snare", "drum"],
     tagsWhen (has "hihat" || has "hi-hat") ["hihat", "drum"],
     tagsWhen (has "bass") ["bass"],
     tagsWhen (has "808") ["808", "sub-bass"],
     tagsWhen (has "guitar") ["guitar"],
     tagsWhen (has "piano" || has "keys") ["piano", "keys"],
     tagsWhen (has "synth") ["synthesizer", "synth"],
     tagsWhen (has "vocal" || has "voice") ["vocal", "voice"],
     tagsWhen (has "trap") ["trap"],
     tagsWhen (has "house") ["house"],
     tagsWhen (has "techno") ["techno"],
     tagsWhen (has "ambient") ["ambient"],
     tagsWhen (has "lo-fi" || has "lofi") ["lo-fi"],
     tagsWhen (decide (bpm < 80)) ["slow", "downtempo"],
     tagsWhen (decide (80 ≤ bpm ∧ bpm < 120)) ["mid-tempo"],
     tagsWhen (decide (120 ≤ bpm ∧ bpm < 140)) ["up-tempo"],
     tagsWhen (decide (140 ≤ bpm)) ["fast", "high-energy"],
     (if key.contains 'm' then ["minor"] else ["major"])])

end AlgorithmicTaggingService

noncomputable section
open Classical

namespace InstrumentDetector

/-- `InstrumentDetector.simpleFFT` (part_001 lines 899-917): direct DFT,
returning the magnitude `sqrt(re² + im²)` of every one of the N bins. -/
def simpleFFT (samples : List ℝ) : List ℝ :=
  let N := samples.length
  (List.range N).map fun (k : ℕ) =>
    let re := ((List.range N).map fun (n : ℕ) =>
      samples.getD n 0 * Real.cos (-2 * Real.pi * (k : ℝ) * (n : ℝ) / (N : ℝ))).sum
    let im := ((List.range N).map fun (n : ℕ) =>
      samples.getD n 0 * Real.sin (-2 * Real.pi * (k : ℝ) * (n : ℝ) / (N : ℝ))).sum
    Real.sqrt (re ^ 2 + im ^ 2)

/-- `InstrumentDetector.calculateSpectralCentroid` (part_001 lines 726-739):
magnitude-weighted mean frequency over the lower half of the spectrum of the
first `fftSize` samples; 0 when the total magnitude is not positive. -/
def calculateSpectralCentroid (channelData : List ℝ) (sampleRate : ℝ)
    (fftSize : ℕ) : ℝ :=
  let fft := simpleFFT (channelData.take fftSize)
  let half := (fft.length + 1) / 2
  let weightedSum := ((List.range half).map fun (i : ℕ) =>
    ((i : ℝ) * sampleRate / (fftSize : ℝ)) * fft.getD i 0).sum
  let magnitudeSum := ((List.range half).map fun i => fft.getD i 0).sum
  if magnitudeSum > 0 then weightedSum / magnitudeSum else 0

/-- The scanning loop of `calculateSpectralRolloff` (part_001 lines 746-752):
add the bin magnitude to the running total, return the bin frequency as soon
as the total reaches the threshold, else fall through to Nyquist. -/
def rolloffAux (fft : List ℝ) (sampleRate : ℝ) (fftSize : ℕ) (threshold : ℝ) :
    List ℕ → ℝ → ℝ
  | [], _ => sampleRate / 2
  | i :: rest, cumulative =>
    let c := cumulative + fft.getD i 0
    if threshold ≤ c then (i : ℝ) * sampleRate / (fftSize : ℝ)
    else rolloffAux fft sampleRate fftSize threshold rest c

/-- `calculateSpectralRolloff` applied to a given magnitude spectrum: total
over the FULL fft array, scan over the lower half only. -/
def rolloffOfSpectrum (fft : List ℝ) (sampleRate : ℝ) (fftSize : ℕ) : ℝ :=
  rolloffAux fft sampleRate fftSize (0.85 * fft.sum)
    (List.range ((fft.length + 1) / 2)) 0

/-- `InstrumentDetector.calculateSpectralRolloff` (part_001 lines 741-755). -/
def calculateSpectralRolloff (channelData : List ℝ) (sampleRate : ℝ)
    (fftSize : ℕ) : ℝ :=
  rolloffOfSpectrum (simpleFFT (channelData.take fftSize)) sampleRate fftSize

/-- `InstrumentDetector.calculateMFCC` (part_001 lines 767-786): 13 pseudo-mel
bands; band `i` sums the fft magnitudes with index in
`[⌊startFreq·fftSize/sr⌋, ⌊endFreq·fftSize/sr⌋)` and stores
`log(sum + 1e-10)`. -/
def calculateMFCC (channelData : List ℝ) (sampleRate : ℝ) (fftSize : ℕ) :
    List ℝ :=
  let fft := simpleFFT (channelData.take fftSize)
  let numFilters := 13
  (List.range numFilters).map fun (i : ℕ) =>
    let startFreq := (i : ℝ) * sampleRate / (2 * (numFilters : ℝ))
    let endFreq := ((i : ℝ) + 1) * sampleRate / (2 * (numFilters : ℝ))
    let jStart := ⌊startFreq * (fftSize : ℝ) / sampleRate⌋
    let jEnd := ⌊endFreq * (fftSize : ℝ) / sampleRate⌋
    let s := ((intRange jStart jEnd).map fun j => fft.getD j.toNat 0).sum
    Real.log (s + 1e-10)

/-- One iteration of the chroma loop (part_001 lines 792-800): the JavaScript
`%` is the truncating remainder, so `chromaIndex` is negative for most
frequencies below 440·2^(-1/24) Hz and the `0 ≤ chromaIndex < 12` guard then
drops the bin. -/
def chromaStep (fft : List ℝ) (sampleRate : ℝ) (fftSize : ℕ)
    (chroma : List ℝ) (i : ℕ) : List ℝ :=
  let frequency := (i : ℝ) * sampleRate / (fftSize : ℝ)
  if 80 < frequency ∧ frequency < 5000 then
    let chromaIndex := Int.tmod (jsRound (12 * Real.logb 2 (frequency / 440))) 12
    if 0 ≤ chromaIndex ∧ chromaIndex < 12 then
      chroma.set chromaIndex.toNat (chroma.getD chromaIndex.toNat 0 + fft.getD i 0)
    else chroma
  else chroma

/-- The chroma accumulation of `calculateChromaFeatures` (part_001 lines
788-803) applied to a given magnitude spectrum. -/
def chromaOfSpectrum (fft : List ℝ) (sampleRate : ℝ) (fftSize : ℕ) : List ℝ :=
  (List.range ((fft.length + 1) / 2)).foldl (chromaStep fft sampleRate fftSize)
    (List.replicate 12 0)

/-- `InstrumentDetector.calculateChromaFeatures` (part_001 lines 788-803):
only the first `fftSize` samples of the buffer are analysed. -/
def calculateChromaFeatures (channelData : List ℝ) (sampleRate : ℝ)
    (fftSize : ℕ) : List ℝ :=
  chromaOfSpectrum (simpleFFT (channelData.take fftSize)) sampleRate fftSize

/-- `InstrumentDetector.calculateEnvelope` (part_001 lines 885-897): one RMS
value per 1024-sample window with hop 512; a buffer of at most 1024 samples
yields an EMPTY envelope because the loop bound `len - windowSize` is not
positive. -/
def calculateEnvelope (channelData : List ℝ) : List ℝ :=
  (windowStarts channelData.length 1024 512).map fun i =>
    let window := (channelData.drop i).take 1024
    let energy := (window.map fun v => v * v).sum
    Real.sqrt (energy / 1024)

/-- First index of the list whose value satisfies `p` (the `for`/`break`
scans of `calculateADSR`). -/
def firstHit (p : ℝ → Prop) : List ℝ → Option ℕ
  | [] => none
  | v :: rest => if p v then some 0 else (firstHit p rest).map (· + 1)

/-- `InstrumentDetector.calculateADSR` (part_001 lines 839-883).
The sustain component is `Option ℝ` because the JavaScript value
`sustainLevel / peak` is not a finite number when `peak = 0` (0/0 = NaN on
any silent buffer long enough to have a non-empty envelope); `none` models
that.  On an EMPTY envelope, `Math.max()` is -infinity, neither scan loop
runs, and `sustain = 0 / -infinity = -0`, modelled as `some 0`. -/
def calculateADSR (channelData : List ℝ) (sampleRate : ℝ) :
    ℝ × Option ℝ × ℝ :=
  let envelope := calculateEnvelope channelData
  match envelope with
  | [] => (0, some 0, 0)
  | e :: es =>
    let env := e :: es
    let peak := es.foldl max e
    let attackTime : ℝ :=
      match firstHit (fun v => 0.9 * peak ≤ v) env with
      | some i => (i : ℝ) / sampleRate
      | none => 0
    let sustainStart := (⌊attackTime * sampleRate⌋).toNat
    let sustainEnd := (⌊(env.length : ℝ) * 0.8⌋).toNat
    let n := sustainEnd - sustainStart
    let sustainSum := ((List.range n).map fun k => env.getD (sustainStart + k) 0).sum
    let sustainLevel : ℝ := if 0 < n then sustainSum / (n : ℝ) else 0
    let decayTime : ℝ :=
      match firstHit (fun v => v ≤ 0.5 * peak) env with
      | some i => (i : ℝ) / sampleRate
      | none => 0
    (attackTime, if peak = 0 then none else some (sustainLevel / peak), decayTime)

end InstrumentDetector

namespace AudioAnalyzer

/-- `AudioAnalyzer.calculateMagnitude` (algorithmicTaggingService.ts lines
109-115): RMS of the window. -/
def calculateMagnitude (samples : List ℝ) : ℝ :=
  Real.sqrt ((samples.map fun v => v * v).sum / (samples.length : ℝ))

/-- `AudioAnalyzer.detectBPM` (algorithmicTaggingService.ts lines 50-83):
onset detection by RMS threshold 0.1, tempo from mean inter-onset interval,
then `Math.max(60, Math.min(200, bpm))`. -/
def detectBPM (channelData : List ℝ) (sampleRate : ℝ) : ℤ :=
  let windowSize := 1024
  let hopSize := 512
  let onsets :=
    ((windowStarts channelData.length windowSize hopSize).filter
      (fun i => decide (calculateMagnitude ((channelData.drop i).take windowSize) > 0.1))).map
      fun (i : ℕ) => (i : ℝ) / sampleRate
  if onsets.length < 2 then 120
  else
    let intervals := (onsets.tail.zip onsets).map fun p => p.1 - p.2
    let avgInterval := intervals.sum / (intervals.length : ℝ)
    let bpm := jsRound (60 / avgInterval)
    max 60 (min 200 bpm)

/-- One iteration of the inner chroma loop of
`AudioAnalyzer.calculateChromaFeatures` (algorithmicTaggingService.ts lines
127-135); unlike the `InstrumentDetector` variant it scans ALL fft bins and
adds `Math.abs(fft[j])`. -/
def chromaStepAA (fft : List ℝ) (sampleRate : ℝ) (fftSize : ℕ)
    (chroma : List ℝ) (j : ℕ) : List ℝ :=
  let freq := (j : ℝ) * sampleRate / (fftSize : ℝ)
  if 80 < freq ∧ freq < 5000 then
    let chromaIndex := Int.tmod (jsRound (12 * Real.logb 2 (freq / 440))) 12
    if 0 ≤ chromaIndex ∧ chromaIndex < 12 then
      chroma.set chromaIndex.toNat (chroma.getD chromaIndex.toNat 0 + |fft.getD j 0|)
    else chroma
  else chroma

/-- `AudioAnalyzer.calculateChromaFeatures` (algorithmicTaggingService.ts
lines 117-139): accumulates over consecutive non-overlapping 2048-sample
windows of the whole file. -/
def calculateChromaFeatures (samples : List ℝ) (sampleRate : ℝ) : List ℝ :=
  let fftSize := 2048
  (windowStarts samples.length fftSize fftSize).foldl
    (fun chroma i =>
      let fft := InstrumentDetector.simpleFFT ((samples.drop i).take fftSize)
      (List.range fft.length).foldl (chromaStepAA fft sampleRate fftSize) chroma)
    (List.replicate 12 0)

end AudioAnalyzer

namespace InstrumentDetector

/-- Modelled from the claim's words (C6), for comparison with
`chromaOfSpectrum`: every bin with frequency in the CLOSED interval
[80, 5000] contributes its magnitude to index
`round(12·log2(f/440)) mod 12` with the MATHEMATICAL (non-negative)
modulus `Int.emod`. -/
def chromaClaimStep (fft : List ℝ) (sampleRate : ℝ) (fftSize : ℕ)
    (chroma : List ℝ) (i : ℕ) : List ℝ :=
  let frequency := (i : ℝ) * sampleRate / (fftSize : ℝ)
  if 80 ≤ frequency ∧ frequency ≤ 5000 then
    let chromaIndex := Int.emod (jsRound (12 * Real.logb 2 (frequency / 440))) 12
    chroma.set chromaIndex.toNat (chroma.getD chromaIndex.toNat 0 + fft.getD i 0)
  else chroma

/-- Modelled from the claim's words (C6): the chroma accumulation with the
mathematical modulus, over the lower half of the spectrum. -/
def chromaClaimOfSpectrum (fft : List ℝ) (sampleRate : ℝ) (fftSize : ℕ) :
    List ℝ :=
  (List.range ((fft.length + 1) / 2)).foldl
    (chromaClaimStep fft sampleRate fftSize) (List.replicate 12 0)

/-- The amended description of one bin's contribution in `chromaOfSpectrum`:
bin `i` of the spectrum contributes to chroma class `c` iff its frequency is
strictly inside (80, 5000) and the TRUNCATING remainder
`round(12·log2(f/440)) tmod 12` is exactly `c` (in particular non-negative;
bins whose remainder is negative are dropped). -/
def chromaBinContributes (sampleRate : ℝ) (fftSize : ℕ) (i : ℕ) (c : ℕ) : Prop :=
  let frequency := (i : ℝ) * sampleRate / (fftSize : ℝ)
  (80 < frequency ∧ frequency < 5000) ∧
    Int.tmod (jsRound (12 * Real.logb 2 (frequency / 440))) 12 = (c : ℤ)

/-- The total magnitude contributed to chroma class `c` by the bins of
`idxs`, per the amended description. -/
def binContribSum (fft : List ℝ) (sampleRate : ℝ) (fftSize : ℕ)
    (idxs : List ℕ) (c : ℕ) : ℝ :=
  ((idxs.filter fun i => decide (chromaBinContributes sampleRate fftSize i c)).map
    fun i => fft.getD i 0).sum

/-- The amended, closed-form description of `chromaOfSpectrum`: class `c`
holds the sum of the magnitudes of exactly the contributing bins of the
lower half-spectrum. -/
def chromaAmendedOfSpectrum (fft : List ℝ) (sampleRate : ℝ) (fftSize : ℕ) :
    List ℝ :=
  (List.range 12).map fun c =>
    binContribSum fft sampleRate fftSize (List.range ((fft.length + 1) / 2)) c

/-- The spectrum used by the C6 counterexample: a single unit magnitude in
bin 6, whose frequency at 44100 Hz / fftSize 2048 is ≈129.2 Hz. -/
def chromaProbeSpectrum : List ℝ :=
  List.replicate 6 0 ++ 1 :: List.replicate 7 0

end InstrumentDetector

end

/-! ### Helper lemmas -/

theorem jsSetDedup_aux_nodup (l acc : List String) (h : acc.Nodup) :
    (l.foldl (fun acc t => if t ∈ acc then acc else acc ++ [t]) acc).Nodup := by
  induction l generalizing acc with
  | nil => simpa using h
  | cons t rest ih =>
    simp only [List.foldl_cons]
    by_cases ht : t ∈ acc
    · rw [if_pos ht]; exact ih acc h
    · rw [if_neg ht]
      exact ih (acc ++ [t]) (by simp [List.nodup_append, h, ht])

theorem jsSetDedup_nodup (l : List String) : (jsSetDedup l).Nodup :=
  jsSetDedup_aux_nodup l [] (by simp)

/-! ### C9: tag synthesizer outputs contain no duplicates -/

/-- C9: for every combination of inputs, the tag lists produced by
`InstrumentDetector.generateInstrumentTags`,
`AudioAnalyzer.generateTagsFromFilename` and
`AlgorithmicTaggingService.generateTagsFromFilename` contain no duplicate
strings (each ends in the `[...new Set(tags)]` deduplication). -/
theorem C9_tag_lists_nodup (instrumentType : String)
    (features : InstrumentDetector.AudioFeatures)
    (filename name : List Char) (bpm bpm2 : ℚ) (key key2 : String) :
    (InstrumentDetector.generateInstrumentTags instrumentType features).Nodup ∧
    (AudioAnalyzer.generateTagsFromFilename filename bpm key).Nodup ∧
    (AlgorithmicTaggingService.generateTagsFromFilename name bpm2 key2).Nodup :=
  ⟨jsSetDedup_nodup _, jsSetDedup_nodup _, jsSetDedup_nodup _⟩

/-! ### C10: zero-crossing rate lies in [0, 1) -/

/-- C10: on every non-empty buffer, `calculateZeroCrossingRate` counts at
most `length - 1` sign changes and divides by `length`, so the result lies
in the half-open interval [0, 1). -/
theorem C10_zcr_range (channelData : List ℚ) (h : channelData ≠ []) :
    0 ≤ InstrumentDetector.calculateZeroCrossingRate channelData ∧
    InstrumentDetector.calculateZeroCrossingRate channelData < 1 := by
  have hlen : 0 < channelData.length := List.length_pos.mpr h
  have hcr : ((channelData.zip channelData.tail).filter
      (fun p => decide (0 ≤ p.2) != decide (0 ≤ p.1))).length < channelData.length := by
    calc ((channelData.zip channelData.tail).filter _).length
        ≤ (channelData.zip channelData.tail).length := List.length_filter_le _ _
      _ ≤ channelData.tail.length := by
          rw [List.length_zip, List.length_tail]; exact min_le_right _ _
      _ < channelData.length := by rw [List.length_tail]; omega
  unfold InstrumentDetector.calculateZeroCrossingRate
  constructor
  · exact div_nonneg (by positivity) (by positivity)
  · rw [div_lt_one (by exact_mod_cast hlen)]
    exact_mod_cast hcr

theorem C10_zcr_range_witness :
    0 ≤ InstrumentDetector.calculateZeroCrossingRate [1, -1, 1] ∧
    InstrumentDetector.calculateZeroCrossingRate [1, -1, 1] < 1 :=
  C10_zcr_range [1, -1, 1] (by simp)

/-! ### C4: rule order, first match wins -/

/-- C4: any feature tuple satisfying both the kick rule
(centroid < 200, energy > 0.7, attack < 0.01) and the later
generic-percussion fallback rule (attack < 0.05, decay < 0.5, energy > 0.6)
is classified as "kick": the rules are evaluated in the fixed order and the
first match wins. -/
theorem C4_kick_before_percussion (f : InstrumentDetector.AudioFeatures)
    (hkick : f.spectralCentroid < 200 ∧ f.energy > 0.7 ∧ f.attack < 0.01)
    (_hperc : f.attack < 0.05 ∧ f.decay < 0.5 ∧ f.energy > 0.6) :
    InstrumentDetector.classifyInstrument f = "kick" := by
  unfold InstrumentDetector.classifyInstrument
  rw [if_pos ⟨hkick.1, hkick.2.1, hkick.2.2⟩]

theorem C4_kick_before_percussion_witness :
    InstrumentDetector.classifyInstrument
      ⟨100, 0, 0, [], [], 0, 0.8, 0.005, 0, 0.1⟩ = "kick" :=
  C4_kick_before_percussion ⟨100, 0, 0, [], [], 0, 0.8, 0.005, 0, 0.1⟩
    ⟨by norm_num, by norm_num, by norm_num⟩
    ⟨by norm_num, by norm_num, by norm_num⟩

/-! ### C3: confidence values -/

/-- C3 (amended): the returned confidence always lies in [0, 1]; but the 0.5
base plus fixed bonus increments exists only for the four classes kick,
snare, hihat and bass — every other label, including matched classes such as
"lead" or "pad" and not only "unknown", receives the flat 0.3 via the
`switch` default. -/
theorem C3_confidence (f : InstrumentDetector.AudioFeatures) (t : String) :
    (0 ≤ InstrumentDetector.calculateConfidence f t ∧
      InstrumentDetector.calculateConfidence f t ≤ 1) ∧
    (t ≠ "kick" → t ≠ "snare" → t ≠ "hihat" → t ≠ "bass" →
      InstrumentDetector.calculateConfidence f t = 0.3) ∧
    (t = "kick" →
      InstrumentDetector.calculateConfidence f t
        = min 1 (max 0 (0.5 + (if f.spectralCentroid < 200 then 0.2 else 0)
            + (if f.energy > 0.7 then 0.2 else 0)
            + (if f.attack < 0.01 then 0.1 else 0)))) := by
  refine ⟨?_, ?_, ?_⟩
  · unfold InstrumentDetector.calculateConfidence
    refine ⟨le_min (by norm_num) (le_max_left 0 _), min_le_left _ _⟩
  · intro h1 h2 h3 h4
    simp only [InstrumentDetector.calculateConfidence, h1, h2, h3, h4,
      if_false, if_neg]
    norm_num
  · intro h
    subst h
    simp [InstrumentDetector.calculateConfidence]

theorem C3_confidence_witness :
    InstrumentDetector.calculateConfidence
        ⟨2000, 0, 0.01, [], [], 0, 0.3, 0.5, 0.6, 1⟩ "lead" = 0.3 ∧
    InstrumentDetector.calculateConfidence
        ⟨100, 0, 0, [], [], 0, 0.8, 0.005, 0, 0.1⟩ "kick"
      = min 1 (max 0 ((0.5 : ℚ) + (if (100 : ℚ) < 200 then 0.2 else 0)
          + (if (0.8 : ℚ) > 0.7 then 0.2 else 0)
          + (if (0.005 : ℚ) < 0.01 then 0.1 else 0))) :=
  ⟨(C3_confidence ⟨2000, 0, 0.01, [], [], 0, 0.3, 0.5, 0.6, 1⟩ "lead").2.1
      (by decide) (by decide) (by decide) (by decide),
    (C3_confidence ⟨100, 0, 0, [], [], 0, 0.8, 0.005, 0, 0.1⟩ "kick").2.2 rfl⟩

/-- C3 counterexample: the feature tuple (centroid 2000, zcr 0.01,
energy 0.3, attack 0.5, sustain 0.6, decay 1) matches the "lead" rule — a
matched class, not "unknown" — yet its confidence is the flat 0.3, below the
0.5 base the claim asserts for every matched class. -/
theorem C3_confidence_counterexample :
    InstrumentDetector.classifyInstrument
      ⟨2000, 0, 0.01, [], [], 0, 0.3, 0.5, 0.6, 1⟩ = "lead" ∧
    ("lead" : String) ≠ "unknown" ∧
    InstrumentDetector.calculateConfidence
      ⟨2000, 0, 0.01, [], [], 0, 0.3, 0.5, 0.6, 1⟩ "lead" = 0.3 ∧
    ¬ (0.5 : ℚ) ≤ 0.3 := by
  refine ⟨?_, by decide, ?_, by norm_num⟩
  · unfold InstrumentDetector.classifyInstrument
    norm_num
  · unfold InstrumentDetector.calculateConfidence
    norm_num [show ("lead" : String) ≠ "kick" by decide,
      show ("lead" : String) ≠ "snare" by decide,
      show ("lead" : String) ≠ "hihat" by decide,
      show ("lead" : String) ≠ "bass" by decide]

/-! ### C1: tempo range -/

/-- C1 (amended): `AudioAnalyzer.detectBPM` always returns a tempo in
[60, 200] thanks to its final `Math.max(60, Math.min(200, bpm))` clamp;
`InstrumentDetector.detectTempo`, the second tempo path, has no clamp (see
the counterexample). -/
theorem C1_detectBPM_range (channelData : List ℝ) (sampleRate : ℝ) :
    60 ≤ AudioAnalyzer.detectBPM channelData sampleRate ∧
    AudioAnalyzer.detectBPM channelData sampleRate ≤ 200 := by
  constructor <;> (simp only [AudioAnalyzer.detectBPM]; split)
  · norm_num
  · exact le_max_left _ _
  · norm_num
  · exact max_le (by norm_num) (min_le_left _ _)

theorem windowEnergySq_replicate_one (i : ℕ) (hi : i ≤ 1024) :
    InstrumentDetector.windowEnergySq (List.replicate 2048 (1 : ℚ)) i 1024 = 1024 := by
  unfold InstrumentDetector.windowEnergySq
  rw [List.drop_replicate, List.take_replicate,
    show min 1024 (2048 - i) = 1024 by omega, List.map_replicate, List.sum_replicate]
  norm_num

/-- C1 counterexample: a constant buffer of 2048 unit samples at 44100 Hz
produces onsets at consecutive hops, so `InstrumentDetector.detectTempo`
returns round(60·44100/512) = 5168 BPM, far outside [60, 200] — this tempo
path has no clamp. -/
theorem C1_detectTempo_counterexample :
    InstrumentDetector.detectTempo (List.replicate 2048 1) 44100 = 5168 ∧
    ¬ (InstrumentDetector.detectTempo (List.replicate 2048 1) 44100 ≤ 200) := by
  have hmain : InstrumentDetector.detectTempo (List.replicate 2048 1) 44100 = 5168 := by
    simp only [InstrumentDetector.detectTempo, List.length_replicate]
    rw [show windowStarts 2048 1024 512 = [0, 512] from by decide]
    norm_num [List.filter_cons, List.filter_nil,
      windowEnergySq_replicate_one 0 (by norm_num),
      windowEnergySq_replicate_one 512 (by norm_num), decide_eq_true_eq, jsRound]
  exact ⟨hmain, by rw [hmain]; decide⟩

/-! ### C7: learning gaps -/

theorem mem_map_filter_iff_of_inj {l : List String} {p : String → Bool}
    {f : String → String} {x : String} (hx : x ∈ l)
    (hinj : ∀ y ∈ l, f y = f x → y = x) :
    f x ∈ (l.filter p).map f ↔ p x = true := by
  constructor
  · intro hm
    rcases List.mem_map.mp hm with ⟨y, hy, hxy⟩
    rcases List.mem_filter.mp hy with ⟨hyl, hyp⟩
    rwa [hinj y hyl hxy] at hyp
  · intro hp
    exact List.mem_map.mpr ⟨x, List.mem_filter.mpr ⟨hx, hp⟩, rfl⟩

theorem gap_mem_iff (a : MIDIAnalysisService.Tables) (inst : String)
    (h : inst ∈ MIDIAnalysisService.commonInstruments) :
    ("Missing " ++ inst ++ " training data") ∈ MIDIAnalysisService.identifyLearningGaps a
      ↔ (a.instruments.lookup inst).getD 0 = 0 := by
  simp only [MIDIAnalysisService.commonInstruments, List.mem_cons,
    List.not_mem_nil, or_false] at h
  rcases h with rfl | rfl | rfl | rfl | rfl | rfl <;>
  · unfold MIDIAnalysisService.identifyLearningGaps
    constructor
    · intro hmem
      rcases List.mem_append.mp hmem with h1 | h4
      · rcases List.mem_append.mp h1 with h2 | h3
        · rcases List.mem_append.mp h2 with hin | ht
          · refine of_decide_eq_true ((mem_map_filter_iff_of_inj ?_ ?_).mp hin) <;>
              decide
          · exfalso; revert ht; split_ifs <;> decide
        · exfalso; revert h3; split_ifs <;> decide
      · exfalso; revert h4; split_ifs <;> decide
    · intro hz
      refine List.mem_append.mpr (Or.inl (List.mem_append.mpr (Or.inl
        (List.mem_append.mpr (Or.inl ((mem_map_filter_iff_of_inj ?_ ?_).mpr
          (decide_eq_true hz))))))) <;> decide

/-- C7 (amended): a `"Missing X training data"` entry appears in the
learning-gap list for exactly those common instruments X absent (or
zero-count) in the accumulated instrument table; but `analyzeSingleMIDI`
defaults every keyword-free file to `Piano`, so a corpus of 5 MIDI filenames
with no instrument keywords yields gaps for exactly the OTHER five common
instruments, plus the three diversity gaps — 8 entries, never a Piano entry
and never exactly 6 instrument entries. -/
theorem C7_learning_gaps :
    (∀ (a : MIDIAnalysisService.Tables) (inst : String),
      inst ∈ MIDIAnalysisService.commonInstruments →
        (("Missing " ++ inst ++ " training data")
            ∈ MIDIAnalysisService.identifyLearningGaps a
          ↔ (a.instruments.lookup inst).getD 0 = 0)) ∧
    MIDIAnalysisService.analyzeMIDIFilesLearningGaps
        ["mix_01.mid".toList, "mix_02.mid".toList, "mix_03.mid".toList,
         "mix_04.mid".toList, "mix_05.mid".toList]
      = ["Missing Guitar training data", "Missing Bass training data",
         "Missing Drums training data", "Missing Saxophone training data",
         "Missing Trumpet training data",
         "Limited tempo diversity - add more varied BPM ranges",
         "Limited genre diversity - add more musical styles",
         "Limited key diversity - add more key signatures"] :=
  ⟨gap_mem_iff, by decide⟩

theorem C7_learning_gaps_witness :
    ("Missing " ++ "Guitar" ++ " training data")
        ∈ MIDIAnalysisService.identifyLearningGaps ⟨[("Piano", 5)], [], [], []⟩
      ↔ (([("Piano", 5)] : List (String × ℕ)).lookup "Guitar").getD 0 = 0 :=
  C7_learning_gaps.1 ⟨[("Piano", 5)], [], [], []⟩ "Guitar" (by decide)

/-- C7 counterexample: on the explicit corpus of 5 MIDI filenames containing
no instrument keyword, every file's instrument table defaults to Piano, so
the batch never reports a Piano gap and `learningGaps` has 8 entries, not
the 6 instrument entries the claim asserts. -/
theorem C7_learning_gaps_counterexample :
    "Missing Piano training data"
        ∉ MIDIAnalysisService.analyzeMIDIFilesLearningGaps
            ["mix_01.mid".toList, "mix_02.mid".toList, "mix_03.mid".toList,
             "mix_04.mid".toList, "mix_05.mid".toList] ∧
    (MIDIAnalysisService.analyzeMIDIFilesLearningGaps
        ["mix_01.mid".toList, "mix_02.mid".toList, "mix_03.mid".toList,
         "mix_04.mid".toList, "mix_05.mid".toList]).length = 8 ∧
    (8 : ℕ) ≠ 6 := by
  decide

/-! ### C8: short buffers -/

theorem calculateEnvelope_short (channelData : List ℝ)
    (h : channelData.length ≤ 1024) :
    InstrumentDetector.calculateEnvelope channelData = [] := by
  unfold InstrumentDetector.calculateEnvelope windowStarts
  rw [Nat.sub_eq_zero_of_le h]
  simp

/-- C8 (amended): a buffer of at most W = 1024 samples produces an EMPTY
envelope window sequence (not one short/zero-padded window); `calculateADSR`
still returns the defined triple (attack 0, sustain -0, decay 0) on that
empty sequence, because JavaScript evaluates `Math.max()` to -infinity and
`0 / -Infinity` to -0. -/
theorem calculateADSR_of_env_nil (channelData : List ℝ) (sampleRate : ℝ)
    (h : InstrumentDetector.calculateEnvelope channelData = []) :
    InstrumentDetector.calculateADSR channelData sampleRate = (0, some 0, 0) := by
  unfold InstrumentDetector.calculateADSR
  rw [h]

theorem C8_short_buffer (channelData : List ℝ) (sampleRate : ℝ)
    (h : channelData.length ≤ 1024) :
    InstrumentDetector.calculateEnvelope channelData = [] ∧
    InstrumentDetector.calculateADSR channelData sampleRate = (0, some 0, 0) :=
  ⟨calculateEnvelope_short channelData h,
    calculateADSR_of_env_nil channelData sampleRate
      (calculateEnvelope_short channelData h)⟩

theorem C8_short_buffer_witness :
    InstrumentDetector.calculateEnvelope (List.replicate 4 (0 : ℝ)) = [] ∧
    InstrumentDetector.calculateADSR (List.replicate 4 (0 : ℝ)) 44100
      = (0, some 0, 0) :=
  C8_short_buffer (List.replicate 4 0) 44100 (by simp)

/-- C8 counterexample: a 100-sample buffer (shorter than W = 1024) yields an
envelope with ZERO windows, not the one short/zero-padded window the claim
asserts. -/
theorem C8_short_buffer_counterexample :
    (List.replicate 100 (0 : ℝ)).length < 1024 ∧
    (InstrumentDetector.calculateEnvelope (List.replicate 100 (0 : ℝ))).length = 0 ∧
    (InstrumentDetector.calculateEnvelope (List.replicate 100 (0 : ℝ))).length ≠ 1 := by
  rw [calculateEnvelope_short _ (by simp)]
  simp

/-! ### Silent-buffer lemmas (C2) -/

theorem getD_replicate_zero (n i : ℕ) :
    (List.replicate n (0 : ℝ)).getD i 0 = 0 := by
  rcases lt_or_ge i n with hi | hi
  · rw [List.getD_eq_getElem _ _ (by simpa using hi), List.getElem_replicate]
  · exact List.getD_eq_default _ _ (by simpa using hi)

theorem simpleFFT_zero (n : ℕ) :
    InstrumentDetector.simpleFFT (List.replicate n (0 : ℝ))
      = List.replicate n 0 := by
  simp only [InstrumentDetector.simpleFFT, List.length_replicate]
  rw [List.eq_replicate_iff]
  refine ⟨by rw [List.length_map, List.length_range], fun b hb => ?_⟩
  rcases List.mem_map.mp hb with ⟨k, _, rfl⟩
  simp [getD_replicate_zero]

theorem set_getD_self (l : List ℝ) (k : ℕ) : l.set k (l.getD k 0) = l := by
  induction l generalizing k with
  | nil => simp
  | cons a t ih =>
    cases k with
    | zero => simp
    | succ k => simp only [List.getD_cons_succ, List.set_cons_succ, List.cons.injEq,
        true_and]; exact ih k

theorem set_getElem?_self (l : List ℝ) (k : ℕ) : l.set k (l[k]?.getD 0) = l := by
  have := set_getD_self l k
  rwa [List.getD_eq_getElem?_getD] at this

theorem foldl_fixed_of {α β : Type} (f : α → β → α) (l : List β) (acc : α)
    (h : ∀ i, f acc i = acc) : l.foldl f acc = acc := by
  induction l with
  | nil => rfl
  | cons i rest ih => rw [List.foldl_cons, h i]; exact ih

theorem chromaStep_zero_spectrum (m : ℕ) (sampleRate : ℝ) (fftSize : ℕ)
    (chroma : List ℝ) (i : ℕ) :
    InstrumentDetector.chromaStep (List.replicate m 0) sampleRate fftSize chroma i
      = chroma := by
  simp only [InstrumentDetector.chromaStep]
  split_ifs <;> simp [getD_replicate_zero, set_getD_self, set_getElem?_self]

theorem chromaOfSpectrum_zero (m : ℕ) (sampleRate : ℝ) (fftSize : ℕ) :
    InstrumentDetector.chromaOfSpectrum (List.replicate m 0) sampleRate fftSize
      = List.replicate 12 0 := by
  unfold InstrumentDetector.chromaOfSpectrum
  exact foldl_fixed_of _ _ _ (chromaStep_zero_spectrum m sampleRate fftSize _)

theorem calculateEnvelope_silent (n : ℕ) :
    InstrumentDetector.calculateEnvelope (List.replicate n (0 : ℝ))
      = List.replicate (((n - 1024) + 511) / 512) 0 := by
  simp only [InstrumentDetector.calculateEnvelope]
  rw [List.eq_replicate_iff]
  constructor
  · rw [List.length_map]
    unfold windowStarts
    rw [List.length_map, List.length_range, List.length_replicate]
    omega
  · intro b hb
    rcases List.mem_map.mp hb with ⟨i, _, rfl⟩
    have hz : (((List.replicate n (0:ℝ)).drop i).take 1024).map (fun v => v * v)
        = List.replicate (min 1024 (n - i)) 0 := by
      rw [List.drop_replicate, List.take_replicate, List.map_replicate]
      norm_num
    rw [hz, List.sum_replicate]
    simp

theorem foldl_max_zero (m : ℕ) :
    (List.replicate m (0 : ℝ)).foldl max 0 = 0 := by
  induction m with
  | zero => rfl
  | succ m ih => rw [List.replicate_succ, List.foldl_cons, max_self]; exact ih

theorem calculateADSR_silent (n : ℕ) (h : 1025 ≤ n) (sampleRate : ℝ) :
    InstrumentDetector.calculateADSR (List.replicate n (0 : ℝ)) sampleRate
      = (0, none, 0) := by
  have henv := calculateEnvelope_silent n
  obtain ⟨m, hm⟩ : ∃ m, ((n - 1024) + 511) / 512 = m + 1 :=
    ⟨((n - 1024) + 511) / 512 - 1, by omega⟩
  rw [hm] at henv
  unfold InstrumentDetector.calculateADSR
  rw [henv, List.replicate_succ]
  simp only [InstrumentDetector.firstHit, foldl_max_zero, mul_zero]
  norm_num

theorem calculateMFCC_silent (n : ℕ) (h : 2048 ≤ n) (sampleRate : ℝ) :
    InstrumentDetector.calculateMFCC (List.replicate n (0 : ℝ)) sampleRate 2048
      = List.replicate 13 (Real.log (0 + 1e-10)) := by
  simp only [InstrumentDetector.calculateMFCC]
  rw [List.take_replicate, show min 2048 n = 2048 by omega, simpleFFT_zero]
  rw [List.eq_replicate_iff]
  constructor
  · rw [List.length_map, List.length_range]
  · intro b hb
    rcases List.mem_map.mp hb with ⟨i, _, rfl⟩
    have hs : ((intRange
        (⌊(i : ℝ) * sampleRate / (2 * (13 : ℕ)) * (2048 : ℕ) / sampleRate⌋)
        (⌊((i : ℝ) + 1) * sampleRate / (2 * (13 : ℕ)) * (2048 : ℕ) / sampleRate⌋)).map
          fun j => (List.replicate 2048 (0:ℝ)).getD j.toNat 0).sum = 0 := by
      apply List.sum_eq_zero
      intro x hx
      rcases List.mem_map.mp hx with ⟨j, _, rfl⟩
      exact getD_replicate_zero 2048 j.toNat
    rw [hs]

theorem calculateSpectralCentroid_silent (n : ℕ) (h : 2048 ≤ n) (sampleRate : ℝ) :
    InstrumentDetector.calculateSpectralCentroid (List.replicate n (0 : ℝ))
      sampleRate 2048 = 0 := by
  simp only [InstrumentDetector.calculateSpectralCentroid]
  rw [List.take_replicate, show min 2048 n = 2048 by omega, simpleFFT_zero]
  have hmag : ((List.range (((List.replicate 2048 (0:ℝ)).length + 1) / 2)).map
      fun i => (List.replicate 2048 (0:ℝ)).getD i 0).sum = 0 := by
    apply List.sum_eq_zero
    intro x hx
    rcases List.mem_map.mp hx with ⟨i, _, rfl⟩
    exact getD_replicate_zero 2048 i
  rw [if_neg]
  rw [hmag]
  exact lt_irrefl 0

theorem calculateChromaFeatures_silent (n : ℕ) (h : 2048 ≤ n) (sampleRate : ℝ) :
    InstrumentDetector.calculateChromaFeatures (List.replicate n (0 : ℝ))
      sampleRate 2048 = List.replicate 12 0 := by
  unfold InstrumentDetector.calculateChromaFeatures
  rw [List.take_replicate, show min 2048 n = 2048 by omega, simpleFFT_zero]
  exact chromaOfSpectrum_zero 2048 sampleRate 2048

theorem detectTempo_silent (n : ℕ) (sampleRate : ℚ) :
    InstrumentDetector.detectTempo (List.replicate n (0 : ℚ)) sampleRate = 120 := by
  simp only [InstrumentDetector.detectTempo]
  have hf : (windowStarts (List.replicate n (0:ℚ)).length 1024 512).filter
      (fun i => decide (InstrumentDetector.windowEnergySq
        (List.replicate n (0:ℚ)) i 1024 > 0.1)) = [] := by
    rw [List.filter_eq_nil_iff]
    intro i _
    have he : InstrumentDetector.windowEnergySq (List.replicate n (0:ℚ)) i 1024
        = 0 := by
      unfold InstrumentDetector.windowEnergySq
      rw [List.drop_replicate, List.take_replicate, List.map_replicate]
      simp
    simp [he]
    norm_num
  rw [hf]
  simp

theorem detectBPM_silent (n : ℕ) (sampleRate : ℝ) :
    AudioAnalyzer.detectBPM (List.replicate n (0 : ℝ)) sampleRate = 120 := by
  simp only [AudioAnalyzer.detectBPM]
  have hf : (windowStarts (List.replicate n (0:ℝ)).length 1024 512).filter
      (fun i => decide (AudioAnalyzer.calculateMagnitude
        (((List.replicate n (0:ℝ)).drop i).take 1024) > 0.1)) = [] := by
    rw [List.filter_eq_nil_iff]
    intro i _
    have hm : ∀ m : ℕ, AudioAnalyzer.calculateMagnitude
        (List.replicate m (0:ℝ)) = 0 := by
      intro m
      unfold AudioAnalyzer.calculateMagnitude
      rw [List.map_replicate]
      simp
    simp [List.drop_replicate, List.take_replicate, hm]
    norm_num
  rw [hf]
  simp

/-! ### C2: silent buffers -/

/-- C2 (amended): on every all-zero buffer of at least fftSize = 2048
samples, the spectral centroid is 0, the chroma vector is all-zero, both
tempo estimators return 120, and attack and decay are 0 — but each of the
13 mel-band values is `log(0 + 1e-10)` ≈ -23.03 rather than 0, and the
sustain ratio is the JavaScript NaN `0 / 0` (modelled `none`) rather
than 0, because the silent envelope's peak is 0. -/
theorem C2_silent_buffer (n : ℕ) (h : 2048 ≤ n) (sampleRate : ℝ)
    (sampleRateQ : ℚ) :
    InstrumentDetector.calculateSpectralCentroid (List.replicate n 0)
        sampleRate 2048 = 0 ∧
    InstrumentDetector.calculateChromaFeatures (List.replicate n 0)
        sampleRate 2048 = List.replicate 12 0 ∧
    InstrumentDetector.detectTempo (List.replicate n 0) sampleRateQ = 120 ∧
    AudioAnalyzer.detectBPM (List.replicate n 0) sampleRate = 120 ∧
    InstrumentDetector.calculateADSR (List.replicate n 0) sampleRate
      = (0, none, 0) ∧
    InstrumentDetector.calculateMFCC (List.replicate n 0) sampleRate 2048
      = List.replicate 13 (Real.log (0 + 1e-10)) :=
  ⟨calculateSpectralCentroid_silent n h sampleRate,
   calculateChromaFeatures_silent n h sampleRate,
   detectTempo_silent n sampleRateQ,
   detectBPM_silent n sampleRate,
   calculateADSR_silent n (by omega) sampleRate,
   calculateMFCC_silent n h sampleRate⟩

theorem C2_silent_buffer_witness :
    InstrumentDetector.calculateSpectralCentroid (List.replicate 2048 0)
        44100 2048 = 0 ∧
    InstrumentDetector.calculateChromaFeatures (List.replicate 2048 0)
        44100 2048 = List.replicate 12 0 ∧
    InstrumentDetector.detectTempo (List.replicate 2048 0) 44100 = 120 ∧
    AudioAnalyzer.detectBPM (List.replicate 2048 0) 44100 = 120 ∧
    InstrumentDetector.calculateADSR (List.replicate 2048 0) 44100
      = (0, none, 0) ∧
    InstrumentDetector.calculateMFCC (List.replicate 2048 0) 44100 2048
      = List.replicate 13 (Real.log (0 + 1e-10)) :=
  C2_silent_buffer 2048 (Nat.le_refl 2048) 44100 44100

/-- C2 counterexample: on the explicit silent buffer of 2048 zero samples,
the first mel band is `log(1e-10)`, which is negative, not 0, and the
sustain value is the non-finite JavaScript `0 / 0` (modelled `none`), not
0. -/
theorem C2_silent_buffer_counterexample :
    (InstrumentDetector.calculateMFCC (List.replicate 2048 (0:ℝ)) 44100
        2048).getD 0 0 = Real.log (0 + 1e-10) ∧
    Real.log (0 + 1e-10) ≠ 0 ∧
    (InstrumentDetector.calculateADSR (List.replicate 2048 (0:ℝ)) 44100).2.1
      = none := by
  refine ⟨?_, ?_, ?_⟩
  · rw [calculateMFCC_silent 2048 (Nat.le_refl 2048) 44100]
    simp
  · rw [zero_add]
    intro hlog
    rcases Real.log_eq_zero.mp hlog with h | h | h <;> norm_num at h
  · rw [calculateADSR_silent 2048 (by omega) 44100]

/-! ### C5: spectral rolloff -/

theorem sum_range_getD (m : ℕ) (l : List ℝ) :
    ((List.range m).map fun i => l.getD i 0).sum = (l.take m).sum := by
  induction m with
  | zero => simp
  | succ m ih =>
    rw [List.range_succ, List.map_append, List.sum_append, ih, List.take_succ,
      List.sum_append]
    rcases h : l[m]? with _ | a <;>
      simp [List.getD_eq_getElem?_getD, h]

theorem rolloffAux_no_hit (fft : List ℝ) (sr : ℝ) (N : ℕ) (θ : ℝ) :
    ∀ (l : List ℕ) (cum : ℝ),
      (∀ k, k < l.length →
        cum + ((l.take (k+1)).map fun i => fft.getD i 0).sum < θ) →
      InstrumentDetector.rolloffAux fft sr N θ l cum = sr / 2 := by
  intro l
  induction l with
  | nil => intro cum _; rfl
  | cons i rest ih =>
    intro cum h
    unfold InstrumentDetector.rolloffAux
    rw [if_neg]
    · apply ih
      intro k hk
      have := h (k + 1) (by simpa using hk)
      rw [List.take_succ_cons, List.map_cons, List.sum_cons, ← add_assoc] at this
      exact this
    · have := h 0 (by simp)
      simp only [List.take_succ_cons, List.take_zero, List.map_cons,
        List.map_nil, List.sum_cons, List.sum_nil, add_zero] at this
      exact not_le.mpr this

theorem rolloffAux_hit (fft : List ℝ) (sr : ℝ) (N : ℕ) (θ : ℝ) :
    ∀ (l : List ℕ) (cum : ℝ) (k : ℕ), k < l.length →
      (θ ≤ cum + ((l.take (k+1)).map fun i => fft.getD i 0).sum) →
      (∀ j, j < k →
        cum + ((l.take (j+1)).map fun i => fft.getD i 0).sum < θ) →
      InstrumentDetector.rolloffAux fft sr N θ l cum
        = ((l.getD k 0 : ℕ) : ℝ) * sr / (N : ℝ) := by
  intro l
  induction l with
  | nil => intro cum k hk; exact absurd hk (by simp)
  | cons i rest ih =>
    intro cum k hk hhit hmin
    cases k with
    | zero =>
      unfold InstrumentDetector.rolloffAux
      rw [if_pos]
      · simp
      · simpa using hhit
    | succ k =>
      unfold InstrumentDetector.rolloffAux
      rw [if_neg]
      · have hres := ih (cum + fft.getD i 0) k (by simpa using hk) ?_ ?_
        · simpa using hres
        · have := hhit
          rw [List.take_succ_cons, List.map_cons, List.sum_cons, ← add_assoc] at this
          exact this
        · intro j hj
          have := hmin (j + 1) (by omega)
          rw [List.take_succ_cons, List.map_cons, List.sum_cons, ← add_assoc] at this
          exact this
      · have := hmin 0 (by omega)
        simp only [List.take_succ_cons, List.take_zero, List.map_cons,
          List.map_nil, List.sum_cons, List.sum_nil, add_zero] at this
        exact not_le.mpr this

theorem rolloffOfSpectrum_zero (m : ℕ) (hm : 1 ≤ m) (sr : ℝ) (N : ℕ) :
    InstrumentDetector.rolloffOfSpectrum (List.replicate m 0) sr N = 0 := by
  unfold InstrumentDetector.rolloffOfSpectrum
  obtain ⟨p, hp⟩ : ∃ p, ((List.replicate m (0:ℝ)).length + 1) / 2 = p + 1 := by
    rw [List.length_replicate]; exact ⟨(m + 1) / 2 - 1, by omega⟩
  rw [hp, List.range_succ_eq_map]
  unfold InstrumentDetector.rolloffAux
  rw [if_pos]
  · norm_num
  · simp [List.sum_replicate, getD_replicate_zero]

/-- C5 (amended): the rolloff scan adds bin magnitudes of the lower
half-spectrum in order and returns the frequency of the FIRST bin at which
the running total reaches 85% of the FULL-spectrum total, and the Nyquist
frequency `sr/2` only when no lower-half prefix reaches that threshold; on
silent input the threshold is 0 and is reached already at bin 0, so the
rolloff is 0, not Nyquist. -/
theorem C5_rolloff_characterization (fft : List ℝ) (sr : ℝ) (N : ℕ) :
    ((∀ k, k < (fft.length + 1) / 2 →
        (fft.take (k+1)).sum < 0.85 * fft.sum) →
      InstrumentDetector.rolloffOfSpectrum fft sr N = sr / 2) ∧
    (∀ k, k < (fft.length + 1) / 2 →
      0.85 * fft.sum ≤ (fft.take (k+1)).sum →
      (∀ j, j < k → (fft.take (j+1)).sum < 0.85 * fft.sum) →
      InstrumentDetector.rolloffOfSpectrum fft sr N = (k : ℝ) * sr / (N : ℝ)) ∧
    (∀ m, 1 ≤ m →
      InstrumentDetector.rolloffOfSpectrum (List.replicate m 0) sr N = 0) ∧
    (∀ data : List ℝ,
      InstrumentDetector.calculateSpectralRolloff data sr N
        = InstrumentDetector.rolloffOfSpectrum
            (InstrumentDetector.simpleFFT (data.take N)) sr N) := by
  refine ⟨?_, ?_, fun m hm => rolloffOfSpectrum_zero m hm sr N, fun _ => rfl⟩
  · intro h
    unfold InstrumentDetector.rolloffOfSpectrum
    apply rolloffAux_no_hit
    intro k hk
    rw [List.length_range] at hk
    rw [zero_add, List.take_range, show min (k+1) ((fft.length + 1) / 2) = k + 1
      by omega, sum_range_getD]
    exact h k hk
  · intro k hk hhit hmin
    unfold InstrumentDetector.rolloffOfSpectrum
    have hres := rolloffAux_hit fft sr N (0.85 * fft.sum)
      (List.range ((fft.length + 1) / 2)) 0 k (by simpa using hk) ?_ ?_
    · rw [hres, List.getD_eq_getElem _ _ (by simpa using hk), List.getElem_range]
    · rw [zero_add, List.take_range, show min (k+1) ((fft.length + 1) / 2) = k + 1
        by omega, sum_range_getD]
      exact hhit
    · intro j hj
      rw [zero_add, List.take_range, show min (j+1) ((fft.length + 1) / 2) = j + 1
        by omega, sum_range_getD]
      exact hmin j hj

theorem C5_rolloff_characterization_witness :
    InstrumentDetector.rolloffOfSpectrum [(0:ℝ), 0] 44100 2048
      = ((0 : ℕ) : ℝ) * 44100 / ((2048 : ℕ) : ℝ) :=
  (C5_rolloff_characterization [0, 0] 44100 2048).2.1 0 (by decide)
    (by simp) (fun j hj => absurd hj (Nat.not_lt_zero j))

/-- C5 counterexample: on the explicit silent 2048-sample buffer the
threshold 0.85·0 = 0 is reached at bin 0, so `calculateSpectralRolloff`
returns 0, not the Nyquist frequency 22050 the claim asserts for degenerate
input. -/
theorem C5_rolloff_counterexample :
    InstrumentDetector.calculateSpectralRolloff (List.replicate 2048 (0:ℝ))
        44100 2048 = 0 ∧
    (0 : ℝ) ≠ 44100 / 2 := by
  constructor
  · unfold InstrumentDetector.calculateSpectralRolloff
    rw [List.take_replicate, show min 2048 2048 = 2048 from rfl, simpleFFT_zero]
    exact rolloffOfSpectrum_zero 2048 (by omega) 44100 2048
  · norm_num

/-! ### C6: chroma accumulation -/

theorem getD_set_iff (l : List ℝ) (k c : ℕ) (x : ℝ) :
    (l.set k x).getD c 0 = if k = c ∧ k < l.length then x else l.getD c 0 := by
  rw [List.getD_eq_getElem?_getD, List.getD_eq_getElem?_getD, List.getElem?_set]
  by_cases h1 : k = c
  · subst h1
    by_cases h2 : k < l.length
    · simp [h2]
    · rw [if_pos rfl, if_neg h2, if_neg (by tauto), List.getElem?_eq_none (by omega)]
  · simp [h1, fun h : k = c ∧ k < l.length => h1 h.1]

theorem foldl_length_invariant {β : Type} (f : List ℝ → β → List ℝ)
    (hf : ∀ acc i, (f acc i).length = acc.length) :
    ∀ (l : List β) (acc : List ℝ), (l.foldl f acc).length = acc.length := by
  intro l
  induction l with
  | nil => intro acc; rfl
  | cons i rest ih => intro acc; rw [List.foldl_cons, ih, hf]

theorem chromaStep_length (fft : List ℝ) (sr : ℝ) (N : ℕ) (chroma : List ℝ)
    (i : ℕ) :
    (InstrumentDetector.chromaStep fft sr N chroma i).length = chroma.length := by
  simp only [InstrumentDetector.chromaStep]
  split_ifs <;> simp

theorem chromaStepAA_length (fft : List ℝ) (sr : ℝ) (N : ℕ) (chroma : List ℝ)
    (j : ℕ) :
    (AudioAnalyzer.chromaStepAA fft sr N chroma j).length = chroma.length := by
  simp only [AudioAnalyzer.chromaStepAA]
  split_ifs <;> simp

open Classical in
theorem binContribSum_singleton (fft : List ℝ) (sr : ℝ) (N : ℕ) (i c : ℕ) :
    InstrumentDetector.binContribSum fft sr N [i] c
      = if InstrumentDetector.chromaBinContributes sr N i c
        then fft.getD i 0 else 0 := by
  simp only [InstrumentDetector.binContribSum, List.filter_cons, List.filter_nil,
    decide_eq_true_eq]
  split_ifs <;> simp

open Classical in
theorem binContribSum_cons (fft : List ℝ) (sr : ℝ) (N : ℕ) (i c : ℕ)
    (rest : List ℕ) :
    InstrumentDetector.binContribSum fft sr N (i :: rest) c
      = InstrumentDetector.binContribSum fft sr N [i] c
        + InstrumentDetector.binContribSum fft sr N rest c := by
  simp only [InstrumentDetector.binContribSum, List.filter_cons, List.filter_nil]
  split_ifs <;> simp

open Classical in
theorem chromaStep_getD (fft : List ℝ) (sr : ℝ) (N : ℕ) (acc : List ℝ)
    (hacc : acc.length = 12) (i c : ℕ) (hc : c < 12) :
    (InstrumentDetector.chromaStep fft sr N acc i).getD c 0
      = acc.getD c 0 + InstrumentDetector.binContribSum fft sr N [i] c := by
  rw [binContribSum_singleton]
  simp only [InstrumentDetector.chromaStep]
  split_ifs with hg hidx hd hd2 hd3 <;>
    simp only [InstrumentDetector.chromaBinContributes, add_zero] at *
  · -- guard, index guard, contributes: the set index IS c
    have ht : (Int.tmod (jsRound (12 * Real.logb 2
        ((i : ℝ) * sr / (N : ℝ) / 440))) 12).toNat = c := by omega
    rw [getD_set_iff, if_pos ⟨ht, by omega⟩, ht]
  · -- guard, index guard, not contributes: the set index is NOT c
    rw [getD_set_iff, if_neg]
    rintro ⟨ht, -⟩
    exact hd ⟨hg, by omega⟩
  · -- guard, no index guard, contributes: impossible (c itself is in range)
    exact absurd ⟨by omega, by omega⟩ hidx
  · -- no guard, contributes: impossible
    exact absurd hd3.1 hg

theorem foldl_chromaStep_getD (fft : List ℝ) (sr : ℝ) (N : ℕ) :
    ∀ (idxs : List ℕ) (acc : List ℝ), acc.length = 12 → ∀ c, c < 12 →
      ((idxs.foldl (InstrumentDetector.chromaStep fft sr N) acc).getD c 0)
        = acc.getD c 0 + InstrumentDetector.binContribSum fft sr N idxs c := by
  intro idxs
  induction idxs with
  | nil =>
    intro acc _ c _
    simp [InstrumentDetector.binContribSum]
  | cons i rest ih =>
    intro acc hacc c hc
    rw [List.foldl_cons,
      ih _ (by rw [chromaStep_length]; exact hacc) c hc,
      binContribSum_cons,
      chromaStep_getD fft sr N acc hacc i c hc, add_assoc]

/-- C6 (amended): the chroma vector always has exactly 12 entries (in both
implementations), and class `c` accumulates the magnitudes of exactly those
lower-half bins whose frequency lies strictly inside (80, 5000) Hz and whose
TRUNCATING remainder `round(12·log2(f/440)) tmod 12` equals `c`; bins whose
remainder is negative (most frequencies below ≈427 Hz) are dropped, not
wrapped with a mathematical modulus. -/
theorem C6_chroma_characterization (fft : List ℝ) (sr : ℝ) (N : ℕ) :
    InstrumentDetector.chromaOfSpectrum fft sr N
      = InstrumentDetector.chromaAmendedOfSpectrum fft sr N ∧
    (InstrumentDetector.chromaOfSpectrum fft sr N).length = 12 ∧
    (∀ data : List ℝ,
      (InstrumentDetector.calculateChromaFeatures data sr N).length = 12) ∧
    (∀ samples : List ℝ,
      (AudioAnalyzer.calculateChromaFeatures samples sr).length = 12) := by
  have hlen : ∀ (g : List ℝ),
      (InstrumentDetector.chromaOfSpectrum g sr N).length = 12 := by
    intro g
    unfold InstrumentDetector.chromaOfSpectrum
    rw [foldl_length_invariant _ (fun acc i => chromaStep_length g sr N acc i),
      List.length_replicate]
  refine ⟨?_, hlen fft, fun data => hlen _, ?_⟩
  · apply List.ext_getElem
    · rw [hlen fft]
      unfold InstrumentDetector.chromaAmendedOfSpectrum
      rw [List.length_map, List.length_range]
    · intro c h1 h2
      have hc : c < 12 := by rw [hlen fft] at h1; exact h1
      rw [← List.getD_eq_getElem _ 0 h1, ← List.getD_eq_getElem _ 0 h2]
      unfold InstrumentDetector.chromaOfSpectrum
        InstrumentDetector.chromaAmendedOfSpectrum
      rw [foldl_chromaStep_getD fft sr N _ _ (List.length_replicate 12 0) c hc,
        getD_replicate_zero, zero_add,
        List.getD_eq_getElem _ 0 (by
          rw [List.length_map, List.length_range]; exact hc),
        List.getElem_map, List.getElem_range]
  · intro samples
    unfold AudioAnalyzer.calculateChromaFeatures
    rw [foldl_length_invariant _ ?_, List.length_replicate]
    intro acc i
    exact foldl_length_invariant _
      (fun acc2 j => chromaStepAA_length _ sr 2048 acc2 j) _ acc

theorem probe_logb_lower :
    (-43 / 24 : ℝ) ≤ Real.logb 2 (6615 / 22528) := by
  rw [Real.le_logb_iff_rpow_le (by norm_num) (by norm_num)]
  have hkey : ((2:ℝ) ^ ((-43 : ℝ) / 24)) ^ (24:ℕ) = ((2:ℝ) ^ (43:ℕ))⁻¹ := by
    rw [← Real.rpow_natCast ((2:ℝ) ^ ((-43 : ℝ) / 24)) 24,
      ← Real.rpow_mul (by norm_num)]
    rw [show (-43 : ℝ) / 24 * ((24:ℕ) : ℝ) = -(((43:ℕ) : ℝ)) by push_cast; ring]
    rw [Real.rpow_neg (by norm_num), Real.rpow_natCast]
  have hpow : ((2:ℝ) ^ ((-43 : ℝ) / 24)) ^ (24:ℕ) ≤ ((6615:ℝ) / 22528) ^ (24:ℕ) := by
    rw [hkey]
    norm_num
  exact (pow_le_pow_iff_left₀ (Real.rpow_nonneg (by norm_num) _)
    (by norm_num) (by norm_num)).mp hpow

theorem probe_logb_upper :
    Real.logb 2 ((6615 : ℝ) / 22528) < -41 / 24 := by
  rw [Real.logb_lt_iff_lt_rpow (by norm_num) (by norm_num)]
  have hkey : ((2:ℝ) ^ ((-41 : ℝ) / 24)) ^ (24:ℕ) = ((2:ℝ) ^ (41:ℕ))⁻¹ := by
    rw [← Real.rpow_natCast ((2:ℝ) ^ ((-41 : ℝ) / 24)) 24,
      ← Real.rpow_mul (by norm_num)]
    rw [show (-41 : ℝ) / 24 * ((24:ℕ) : ℝ) = -(((41:ℕ) : ℝ)) by push_cast; ring]
    rw [Real.rpow_neg (by norm_num), Real.rpow_natCast]
  have hpow : ((6615:ℝ) / 22528) ^ (24:ℕ) < ((2:ℝ) ^ ((-41 : ℝ) / 24)) ^ (24:ℕ) := by
    rw [hkey]
    norm_num
  exact lt_of_pow_lt_pow_left₀ 24 (Real.rpow_nonneg (by norm_num) _) hpow

theorem probe_round :
    jsRound (12 * Real.logb 2 ((6615 : ℝ) / 22528)) = -21 := by
  unfold jsRound
  rw [Int.floor_eq_iff]
  have h1 := probe_logb_lower
  have h2 := probe_logb_upper
  constructor
  · push_cast
    linarith
  · push_cast
    linarith

theorem probe_freq_eq :
    ((6 : ℕ) : ℝ) * 44100 / ((2048 : ℕ) : ℝ) / 440 = 6615 / 22528 := by
  push_cast
  norm_num

/-- C6 counterexample: in the explicit spectrum with a single unit magnitude
in bin 6 (frequency ≈129.2 Hz ∈ (80, 5000)), the code's chroma stays
all-zero — `round(12·log2(129.2/440)) = -21` and `-21 % 12 = -9` in
JavaScript, so the guard drops the bin — while the claim's mathematical
modulus would put the magnitude in class `(-21) mod 12 = 3`. -/
theorem C6_chroma_counterexample :
    InstrumentDetector.chromaOfSpectrum InstrumentDetector.chromaProbeSpectrum
        44100 2048 = List.replicate 12 0 ∧
    (InstrumentDetector.chromaClaimOfSpectrum InstrumentDetector.chromaProbeSpectrum
        44100 2048).getD 3 0 = 1 ∧
    InstrumentDetector.chromaProbeSpectrum.getD 6 0 = 1 ∧
    InstrumentDetector.chromaOfSpectrum InstrumentDetector.chromaProbeSpectrum
        44100 2048
      ≠ InstrumentDetector.chromaClaimOfSpectrum
          InstrumentDetector.chromaProbeSpectrum 44100 2048 := by
  have hzero : ∀ (acc : List ℝ) (i : ℕ),
      InstrumentDetector.chromaProbeSpectrum.getD i 0 = 0 →
      InstrumentDetector.chromaStep InstrumentDetector.chromaProbeSpectrum
        44100 2048 acc i = acc := by
    intro acc i hg
    simp only [InstrumentDetector.chromaStep, hg]
    split_ifs <;> simp [set_getD_self, set_getElem?_self]
  have hzeroc : ∀ (acc : List ℝ) (i : ℕ),
      InstrumentDetector.chromaProbeSpectrum.getD i 0 = 0 →
      InstrumentDetector.chromaClaimStep InstrumentDetector.chromaProbeSpectrum
        44100 2048 acc i = acc := by
    intro acc i hg
    simp only [InstrumentDetector.chromaClaimStep, hg]
    split_ifs <;> simp [set_getD_self, set_getElem?_self]
  have hguard : 80 < ((6:ℕ) : ℝ) * 44100 / ((2048:ℕ) : ℝ) ∧
      ((6:ℕ) : ℝ) * 44100 / ((2048:ℕ) : ℝ) < 5000 := by
    constructor <;> (push_cast; norm_num)
  have hguardc : 80 ≤ ((6:ℕ) : ℝ) * 44100 / ((2048:ℕ) : ℝ) ∧
      ((6:ℕ) : ℝ) * 44100 / ((2048:ℕ) : ℝ) ≤ 5000 := by
    constructor <;> (push_cast; norm_num)
  have h6 : ∀ acc : List ℝ,
      InstrumentDetector.chromaStep InstrumentDetector.chromaProbeSpectrum
        44100 2048 acc 6 = acc := by
    intro acc
    simp only [InstrumentDetector.chromaStep]
    rw [if_pos hguard, probe_freq_eq, probe_round,
      if_neg (by decide : ¬(0 ≤ Int.tmod (-21) 12 ∧ Int.tmod (-21) 12 < 12))]
  have h6c : ∀ acc : List ℝ,
      InstrumentDetector.chromaClaimStep InstrumentDetector.chromaProbeSpectrum
        44100 2048 acc 6 = acc.set 3 (acc.getD 3 0 + 1) := by
    intro acc
    simp only [InstrumentDetector.chromaClaimStep]
    rw [if_pos hguardc, probe_freq_eq, probe_round,
      show (Int.emod (-21) 12).toNat = 3 from by decide,
      show InstrumentDetector.chromaProbeSpectrum.getD 6 0 = 1 from rfl]
  have hrange : List.range ((InstrumentDetector.chromaProbeSpectrum.length + 1) / 2)
      = [0, 1, 2, 3, 4, 5, 6] := by
    rw [show InstrumentDetector.chromaProbeSpectrum.length = 14 from rfl]
    rfl
  have hcode : InstrumentDetector.chromaOfSpectrum
      InstrumentDetector.chromaProbeSpectrum 44100 2048 = List.replicate 12 0 := by
    unfold InstrumentDetector.chromaOfSpectrum
    rw [hrange]
    simp only [List.foldl_cons, List.foldl_nil]
    rw [hzero _ 0 rfl, hzero _ 1 rfl, hzero _ 2 rfl, hzero _ 3 rfl,
      hzero _ 4 rfl, hzero _ 5 rfl, h6]
  have hclaim : InstrumentDetector.chromaClaimOfSpectrum
      InstrumentDetector.chromaProbeSpectrum 44100 2048
      = (List.replicate 12 0).set 3 ((List.replicate 12 (0:ℝ)).getD 3 0 + 1) := by
    unfold InstrumentDetector.chromaClaimOfSpectrum
    rw [hrange]
    simp only [List.foldl_cons, List.foldl_nil]
    rw [hzeroc _ 0 rfl, hzeroc _ 1 rfl, hzeroc _ 2 rfl, hzeroc _ 3 rfl,
      hzeroc _ 4 rfl, hzeroc _ 5 rfl, h6c]
  refine ⟨hcode, ?_, rfl, ?_⟩
  · rw [hclaim, getD_replicate_zero, zero_add]
    rfl
  · rw [hcode, hclaim, getD_replicate_zero, zero_add]
    intro habs
    have h3 := congrArg (fun l : List ℝ => l.getD 3 0) habs
    simp only [getD_replicate_zero] at h3
    rw [show ((List.replicate 12 (0:ℝ)).set 3 1).getD 3 0 = 1 from rfl] at h3
    norm_num at h3
